import Mathlib

/-!
Travel-blog backend (`backend/server.js`): model and verified properties.

The Express application of `server.js` is embedded as pure functions over an explicit
database state.  Every route handler becomes a function
`Env → Db → … → Db × Response`; the `authenticate` middleware becomes a combinator that
either answers itself or passes the decoded claims to the handler.

Libraries outside the repository are kept abstract or modelled minimally:

* `jsonwebtoken` is a parameter (`Jwt`), with one sample instance used to instantiate the
  theorems on concrete requests;
* the MongoDB collections are lists of documents in insertion order; a store call can
  throw (`Env.fails`), which is what the handlers' `catch` blocks answer with status 500.

Request bodies are JSON objects whose properties are strings, except `people`, a number;
a property can be absent.  Bodies with properties of other JSON types are outside the model.
Accounts carry no identifier, since no handler reads it.
-/

namespace Flego

/-! ## Data model (the three schemas of `server.js`) -/

/-- Document of the `User` collection (`userSchema`). -/
structure User where
  name : String
  email : String
  password : String
  role : String
deriving DecidableEq, Repr

/-- Document of the `Booking` collection (`bookingSchema` of `server.js`). -/
structure Booking where
  id : Nat
  name : String
  email : String
  people : Int
  city : String
  price : String
  date : Nat
deriving DecidableEq, Repr

/-- Document of the `Blog` collection (`blogSchema`). -/
structure Blog where
  id : Nat
  title : String
  content : String
  author : String
  email : String
  date : Nat
deriving DecidableEq, Repr

/-- The three collections of the database. Each list is in insertion order. -/
structure Db where
  users : List User
  bookings : List Booking
  blogs : List Blog
deriving DecidableEq, Repr

/-- Payload of a token: what `login` signs and what `jwt.verify` decodes into `req.user`. -/
structure Claims where
  name : String
  email : String
  role : String
deriving DecidableEq, Repr

/-- What a request observes of its environment: the clock (`Date.now()`, milliseconds), the
identifier generated for a document constructed during the request, and which of the
request's store calls (numbered from 0) throw.  A route parameter that is not a well-formed
identifier makes the store call throw as well, so `fails` covers that case too. -/
structure Env where
  now : Nat
  objectId : Nat
  fails : Nat → Bool

/-- The `jsonwebtoken` library: `sign payload secret expiresIn clock` and
`verify token secret clock`, where `expiresIn` is in seconds, the clock in milliseconds and
`verify` answers `none` when it reports an error.  The token handed to `verify` is `none`
when the header had no second part (`undefined` in the source). -/
structure Jwt where
  sign : Claims → String → Nat → Nat → String
  verify : Option String → String → Nat → Option Claims

/-- JSON body of a request: its string-valued properties by name, and the number `people`. -/
structure Body where
  text : String → Option String
  people : Option Int

/-- Account as listed by `User.find` with the projection `-password`. -/
structure PublicUser where
  name : String
  email : String
  role : String
deriving DecidableEq, Repr

/-- JSON document sent back by a handler. -/
inductive Payload where
  | message (message : String)
  | loginOk (message : String) (token : String) (user : Claims)
  | bookingSaved (message : String) (booking : Booking)
  | blogSaved (message : String) (blog : Blog)
  | bookings (list : List Booking)
  | users (list : List PublicUser)
  | blogs (list : List Blog)
deriving DecidableEq, Repr

/-- HTTP response: `res.status(n).json(payload)`; `res.json(payload)` alone is status 200. -/
structure Response where
  status : Nat
  body : Payload
deriving DecidableEq, Repr

/-- Routes registered without middleware. -/
inductive PublicRoute where
  | signup
  | login
  | listBookings
  | listBlogs
deriving DecidableEq, Repr

/-- Routes registered behind `authenticate`. -/
inductive ProtectedRoute where
  | createBooking
  | listBookingsAdmin
  | deleteBooking (id : Nat)
  | listUsers
  | createBlog
  | deleteBlog (id : Nat)
deriving DecidableEq, Repr

/-- The ten endpoints of the application. -/
inductive Endpoint where
  | pub (r : PublicRoute)
  | prot (r : ProtectedRoute)
deriving DecidableEq, Repr

/-- An incoming request: the route it matches, its `Authorization` header and its body. -/
structure Request where
  endpoint : Endpoint
  authorization : Option String
  body : Body

/-! ## JavaScript helpers -/

/-- Signing secret of `server.js`. -/
def SECRET_KEY : String := "your_secret_key"

/-- Truthiness of a string property: `some s` when the property is a non-empty string,
`none` when it is `undefined` or `""` (the values for which `!x` holds). -/
def truthy : Option String → Option String
  | some s => if s = "" then none else some s
  | none => none

/-- Truthiness of a numeric property: `undefined` and `0` are falsy. -/
def truthyNum : Option Int → Option Int
  | some n => if n = 0 then none else some n
  | none => none

/-- Pieces of a character list between occurrences of `sep` (`String.prototype.split`
with a one-character separator). -/
def splitChars (sep : Char) : List Char → List (List Char)
  | [] => [[]]
  | c :: cs =>
    if c = sep then [] :: splitChars sep cs
    else
      match splitChars sep cs with
      | [] => [[c]]
      | w :: ws => (c :: w) :: ws

/-- Token part of a header: `authHeader.split(' ')[1]`. -/
def tokenOf (authHeader : String) : Option String :=
  ((splitChars ' ' authHeader.data).get? 1).map String.mk

/-! ## Store operations (Mongoose models) -/

/-- Outcome of a store call: it throws (`none`) or resolves to a value. -/
abbrev Store (α : Type) := Option α

/-- `User.findOne` by email: the first account with that email.  Every account of the
model has an email, so a lookup with an `undefined` email finds nothing. -/
def User.findOne (env : Env) (call : Nat) (db : Db) (email : Option String) :
    Store (Option User) :=
  if env.fails call then none
  else
    match email with
    | none => some none
    | some e => some (db.users.find? (fun u => u.email = e))

/-- `newUser.save()`: inserts the account; the unique index on `email` rejects a duplicate. -/
def User.save (env : Env) (call : Nat) (db : Db) (u : User) : Store Db :=
  if env.fails call then none
  else if db.users.any (fun v => v.email = u.email) then none
  else some { db with users := db.users ++ [u] }

/-- `User.find` with the projection `-password`: every account, without its password. -/
def User.find (env : Env) (call : Nat) (db : Db) : Store (List PublicUser) :=
  if env.fails call then none
  else some (db.users.map (fun u => ⟨u.name, u.email, u.role⟩))

/-- `Booking.find()`. -/
def Booking.find (env : Env) (call : Nat) (db : Db) : Store (List Booking) :=
  if env.fails call then none else some db.bookings

/-- `newBooking.save()`: inserts the booking; identifiers are unique in a collection. -/
def Booking.save (env : Env) (call : Nat) (db : Db) (b : Booking) : Store Db :=
  if env.fails call then none
  else if db.bookings.any (fun v => v.id = b.id) then none
  else some { db with bookings := db.bookings ++ [b] }

/-- `Booking.findByIdAndDelete(id)`: removes the booking with that identifier and resolves
to it, or to `null` when there is none. -/
def Booking.findByIdAndDelete (env : Env) (call : Nat) (db : Db) (id : Nat) :
    Store (Option Booking × Db) :=
  if env.fails call then none
  else
    match db.bookings.find? (fun b => b.id = id) with
    | none => some (none, db)
    | some b => some (some b, { db with bookings := db.bookings.erase b })

/-- Order of `sort` by `date: -1`: `a` may come before `b`. -/
def Blog.newerEq (a b : Blog) : Prop := b.date ≤ a.date

instance : DecidableRel Blog.newerEq := fun a b => inferInstanceAs (Decidable (b.date ≤ a.date))

instance : IsTotal Blog Blog.newerEq := ⟨fun a b => Nat.le_total b.date a.date⟩

instance : IsTrans Blog Blog.newerEq := ⟨fun _ _ _ hab hbc => Nat.le_trans hbc hab⟩

/-- `Blog.find().sort` by `date: -1`: every post, most recent first. -/
def Blog.findSorted (env : Env) (call : Nat) (db : Db) : Store (List Blog) :=
  if env.fails call then none else some (db.blogs.insertionSort Blog.newerEq)

/-- `newBlog.save()`: inserts the post; identifiers are unique in a collection. -/
def Blog.save (env : Env) (call : Nat) (db : Db) (b : Blog) : Store Db :=
  if env.fails call then none
  else if db.blogs.any (fun v => v.id = b.id) then none
  else some { db with blogs := db.blogs ++ [b] }

/-- `Blog.findById(id)`. -/
def Blog.findById (env : Env) (call : Nat) (db : Db) (id : Nat) : Store (Option Blog) :=
  if env.fails call then none else some (db.blogs.find? (fun b => b.id = id))

/-- `Blog.findByIdAndDelete(id)`. -/
def Blog.findByIdAndDelete (env : Env) (call : Nat) (db : Db) (id : Nat) :
    Store (Option Blog × Db) :=
  if env.fails call then none
  else
    match db.blogs.find? (fun b => b.id = id) with
    | none => some (none, db)
    | some b => some (some b, { db with blogs := db.blogs.erase b })

/-! ## Middleware and route handlers -/

/-- The `authenticate` middleware (`server.js` lines 48-58): answers 401 when the header
is missing or empty, 403 when `jwt.verify` reports an error, and otherwise runs `next` with
the decoded claims as `req.user`. -/
def authenticate (jwt : Jwt) (env : Env) (authHeader : Option String) (db : Db)
    (next : Claims → Db × Response) : Db × Response :=
  match truthy authHeader with
  | none => (db, ⟨401, .message "Missing token"⟩)
  | some h =>
    match jwt.verify (tokenOf h) SECRET_KEY env.now with
    | none => (db, ⟨403, .message "Invalid token"⟩)
    | some decoded => next decoded

/-- Handler of `POST /api/signup` (lines 61-79). -/
def signup (env : Env) (db : Db) (body : Body) : Db × Response :=
  match truthy (body.text "name"), truthy (body.text "email"),
      truthy (body.text "password") with
  | some name, some email, some password =>
    match User.findOne env 0 db (some email) with
    | none => (db, ⟨500, .message "Error registering user"⟩)
    | some (some _) => (db, ⟨400, .message "User already exists"⟩)
    | some none =>
      let newUser : User :=
        ⟨name, email, password, (truthy (body.text "role")).getD "user"⟩
      match User.save env 1 db newUser with
      | none => (db, ⟨500, .message "Error registering user"⟩)
      | some db' => (db', ⟨201, .message "User registered successfully"⟩)
  | _, _, _ => (db, ⟨400, .message "All fields are required"⟩)

/-- Handler of `POST /api/login` (lines 81-105). -/
def login (jwt : Jwt) (env : Env) (db : Db) (body : Body) : Db × Response :=
  match User.findOne env 0 db (body.text "email") with
  | none => (db, ⟨500, .message "Error logging in"⟩)
  | some none => (db, ⟨400, .message "Invalid email or password"⟩)
  | some (some user) =>
    if some user.password ≠ body.text "password" then
      (db, ⟨400, .message "Invalid email or password"⟩)
    else
      let token := jwt.sign ⟨user.name, user.email, user.role⟩ SECRET_KEY 3600 env.now
      (db, ⟨200, .loginOk "Login successful" token ⟨user.name, user.email, user.role⟩⟩)

/-- Handler of `GET /api/bookings` (lines 108-115). -/
def listBookings (env : Env) (db : Db) : Db × Response :=
  match Booking.find env 0 db with
  | none => (db, ⟨500, .message "Failed to fetch bookings"⟩)
  | some bookings => (db, ⟨200, .bookings bookings⟩)

/-- Handler of `POST /api/bookings` (lines 117-130), after `authenticate`. -/
def createBooking (env : Env) (db : Db) (_user : Claims) (body : Body) : Db × Response :=
  match truthy (body.text "name"), truthy (body.text "email"), truthyNum body.people,
      truthy (body.text "city"), truthy (body.text "price") with
  | some name, some email, some people, some city, some price =>
    let newBooking : Booking := ⟨env.objectId, name, email, people, city, price, env.now⟩
    match Booking.save env 0 db newBooking with
    | none => (db, ⟨500, .message "Failed to save booking"⟩)
    | some db' => (db', ⟨201, .bookingSaved "Booking confirmed" newBooking⟩)
  | _, _, _, _, _ => (db, ⟨400, .message "All fields required"⟩)

/-- Handler of `GET /api/admin/bookings` (lines 132-143), after `authenticate`. -/
def listBookingsAdmin (env : Env) (db : Db) (user : Claims) : Db × Response :=
  if user.role ≠ "admin" then (db, ⟨403, .message "Access denied"⟩)
  else
    match Booking.find env 0 db with
    | none => (db, ⟨500, .message "Error fetching bookings"⟩)
    | some bookings => (db, ⟨200, .bookings bookings⟩)

/-- Handler of `DELETE /api/admin/bookings/:id` (lines 145-159), after `authenticate`. -/
def deleteBooking (env : Env) (db : Db) (user : Claims) (id : Nat) : Db × Response :=
  if user.role ≠ "admin" then (db, ⟨403, .message "Access denied"⟩)
  else
    match Booking.findByIdAndDelete env 0 db id with
    | none => (db, ⟨500, .message "Error deleting booking"⟩)
    | some (none, db') => (db', ⟨404, .message "Booking not found"⟩)
    | some (some _, db') => (db', ⟨200, .message "Booking cancelled successfully"⟩)

/-- Handler of `GET /api/admin/users` (lines 162-173), after `authenticate`. -/
def listUsers (env : Env) (db : Db) (user : Claims) : Db × Response :=
  if user.role ≠ "admin" then (db, ⟨403, .message "Access denied"⟩)
  else
    match User.find env 0 db with
    | none => (db, ⟨500, .message "Error fetching users"⟩)
    | some users => (db, ⟨200, .users users⟩)

/-- Handler of `GET /api/blogs` (lines 176-183). -/
def listBlogs (env : Env) (db : Db) : Db × Response :=
  match Blog.findSorted env 0 db with
  | none => (db, ⟨500, .message "Failed to fetch blogs"⟩)
  | some blogs => (db, ⟨200, .blogs blogs⟩)

/-- Handler of `POST /api/blogs` (lines 185-203), after `authenticate`. -/
def createBlog (env : Env) (db : Db) (user : Claims) (body : Body) : Db × Response :=
  match truthy (body.text "title"), truthy (body.text "content") with
  | some title, some content =>
    let newBlog : Blog := ⟨env.objectId, title, content, user.name, user.email, env.now⟩
    match Blog.save env 0 db newBlog with
    | none => (db, ⟨500, .message "Error creating blog"⟩)
    | some db' => (db', ⟨201, .blogSaved "Blog created" newBlog⟩)
  | _, _ => (db, ⟨400, .message "Title and content are required"⟩)

/-- Handler of `DELETE /api/blogs/:id` (lines 205-219), after `authenticate`. -/
def deleteBlog (env : Env) (db : Db) (user : Claims) (id : Nat) : Db × Response :=
  match Blog.findById env 0 db id with
  | none => (db, ⟨500, .message "Error deleting blog"⟩)
  | some none => (db, ⟨404, .message "Blog not found"⟩)
  | some (some blog) =>
    if blog.email ≠ user.email ∧ user.role ≠ "admin" then
      (db, ⟨403, .message "Not authorized to delete this blog"⟩)
    else
      match Blog.findByIdAndDelete env 1 db id with
      | none => (db, ⟨500, .message "Error deleting blog"⟩)
      | some (_, db') => (db', ⟨200, .message "Blog deleted"⟩)

/-- Handler of a protected route, run by `authenticate` with the decoded claims. -/
def protectedHandler (env : Env) (db : Db) (body : Body) (r : ProtectedRoute)
    (user : Claims) : Db × Response :=
  match r with
  | .createBooking => createBooking env db user body
  | .listBookingsAdmin => listBookingsAdmin env db user
  | .deleteBooking id => deleteBooking env db user id
  | .listUsers => listUsers env db user
  | .createBlog => createBlog env db user body
  | .deleteBlog id => deleteBlog env db user id

/-- The router: one request against the current database. -/
def handle (jwt : Jwt) (env : Env) (db : Db) (req : Request) : Db × Response :=
  match req.endpoint with
  | .pub .signup => signup env db req.body
  | .pub .login => login jwt env db req.body
  | .pub .listBookings => listBookings env db
  | .pub .listBlogs => listBlogs env db
  | .prot r => authenticate jwt env req.authorization db (protectedHandler env db req.body r)

/-- Database after a sequence of requests handled one after the other. -/
def run (jwt : Jwt) (db : Db) : List (Env × Request) → Db
  | [] => db
  | (env, req) :: rest => run jwt (handle jwt env db req).1 rest

/-! ## A sample token library

A small instance of `Jwt`, used to run the handlers on concrete requests.  A token is the
expiry time, the secret and the three claims, each written as a length in unary followed by
the characters. -/

/-- Unary numeral: `n` times `'1'`, then `'0'`. -/
def encodeNat (n : Nat) : List Char := List.replicate n '1' ++ ['0']

/-- Length-prefixed string. -/
def encodeStr (s : String) : List Char := encodeNat s.length ++ s.data

/-- Reads a unary numeral and returns it with the rest of the input. -/
def decodeNat : List Char → Option (Nat × List Char)
  | [] => none
  | c :: cs =>
    if c = '0' then some (0, cs)
    else if c = '1' then (decodeNat cs).map (fun p => (p.1 + 1, p.2))
    else none

/-- Reads a length-prefixed string and returns it with the rest of the input. -/
def decodeStr (l : List Char) : Option (String × List Char) :=
  match decodeNat l with
  | none => none
  | some (n, rest) =>
    if n ≤ rest.length then some (String.mk (rest.take n), rest.drop n) else none

/-- Sample `jwt.sign`: expiry in seconds, secret, name, email and role. -/
def sampleSign (c : Claims) (secret : String) (expiresIn : Nat) (now : Nat) : String :=
  String.mk (encodeNat (now / 1000 + expiresIn) ++ encodeStr secret ++ encodeStr c.name
    ++ encodeStr c.email ++ encodeStr c.role)

/-- Sample `jwt.verify`: fails on a missing or malformed token, a different secret, or
when the clock has reached the expiry time. -/
def sampleVerify (token : Option String) (secret : String) (now : Nat) : Option Claims :=
  match token with
  | none => none
  | some t =>
    match decodeNat t.data with
    | none => none
    | some (exp, r0) =>
      match decodeStr r0 with
      | none => none
      | some (key, r1) =>
        match decodeStr r1 with
        | none => none
        | some (name, r2) =>
          match decodeStr r2 with
          | none => none
          | some (email, r3) =>
            match decodeStr r3 with
            | none => none
            | some (role, r4) =>
              if r4 = [] ∧ key = secret ∧ now / 1000 < exp then some ⟨name, email, role⟩
              else none

/-- The sample token library. -/
def sampleJwt : Jwt := ⟨sampleSign, sampleVerify⟩

/-- Signing and verifying agree: a token verified before its expiry decodes to the claims
that were signed. -/
def Jwt.Lawful (jwt : Jwt) : Prop :=
  ∀ (c : Claims) (secret : String) (expiresIn iat t : Nat),
    iat / 1000 ≤ t / 1000 → t / 1000 < iat / 1000 + expiresIn →
    jwt.verify (some (jwt.sign c secret expiresIn iat)) secret t = some c

/-- JSON body with the given string properties and `people`. -/
def jsonBody (fields : List (String × String)) (people : Option Int) : Body :=
  ⟨fun k => fields.lookup k, people⟩

/-- Environment in which no store call throws. -/
def calmEnv (now objectId : Nat) : Env := ⟨now, objectId, fun _ => false⟩

/-- Environment in which every store call throws. -/
def stormEnv (now objectId : Nat) : Env := ⟨now, objectId, fun _ => true⟩

/-- Header `Bearer <token>` whose token the sample library verifies, until clock 2000, as
the claims of the administrator `A`. -/
def adminHeader : String :=
  "Bearer 1101111111111111110your_secret_key10A11111110a@x.com111110admin"

/-- Header whose token the sample library verifies, until clock 2000, as the claims of the
ordinary user `B`. -/
def userHeader : String :=
  "Bearer 1101111111111111110your_secret_key10B11111110b@x.com11110user"

/-! ## Basic facts about the helpers -/

theorem truthy_eq_some_iff (x : Option String) (s : String) :
    truthy x = some s ↔ x = some s ∧ s ≠ "" := by
  cases x with
  | none => simp [truthy]
  | some t =>
    by_cases ht : t = ""
    · subst ht
      simp only [truthy, if_true, Option.some.injEq]
      constructor
      · intro h; cases h
      · rintro ⟨h1, h2⟩; exact absurd h1.symm h2
    · simp only [truthy, if_neg ht, Option.some.injEq]
      constructor
      · intro h; subst h; exact ⟨rfl, ht⟩
      · intro h; exact h.1

theorem truthy_eq_none_iff (x : Option String) :
    truthy x = none ↔ x = none ∨ x = some "" := by
  cases x with
  | none => simp [truthy]
  | some t =>
    by_cases ht : t = ""
    · subst ht; simp [truthy]
    · simp [truthy, ht]

theorem truthy_some_of_ne {s : String} (h : s ≠ "") : truthy (some s) = some s :=
  (truthy_eq_some_iff (some s) s).2 ⟨rfl, h⟩

/-- With unique emails, the lookup by an account's email finds that account. -/
theorem find_email_of_mem :
    ∀ (l : List User) (u : User), (l.map User.email).Nodup → u ∈ l →
      l.find? (fun v => v.email = u.email) = some u
  | [], _, _, h => by cases h
  | v :: l, u, hnd, h => by
    rw [List.map_cons, List.nodup_cons] at hnd
    by_cases hv : v.email = u.email
    · have huv : u = v := by
        rcases List.mem_cons.1 h with h | h
        · exact h
        · exact absurd (hv ▸ List.mem_map_of_mem User.email h) hnd.1
      subst huv
      simp
    · have hmem : u ∈ l := by
        rcases List.mem_cons.1 h with h | h
        · exact absurd (h ▸ rfl) hv
        · exact h
      rw [List.find?_cons_of_neg _ (by simpa using hv)]
      exact find_email_of_mem l u hnd.2 hmem

/-- The lookup finds nothing exactly when no account has the email. -/
theorem find_email_none (l : List User) (e : String) :
    l.find? (fun v => v.email = e) = none ↔ ∀ u ∈ l, u.email ≠ e := by
  simp [List.find?_eq_none]

/-- The account a lookup finds is stored and has the email asked for. -/
theorem find_email_some {l : List User} {e : String} {u : User}
    (h : l.find? (fun v => v.email = e) = some u) : u ∈ l ∧ u.email = e := by
  refine ⟨List.mem_of_find?_eq_some h, ?_⟩
  simpa using List.find?_some h

/-! ## C1: the `authenticate` guard -/

/-- C1 (amended): on every protected route, a missing or empty `Authorization` header is
answered 401 "Missing token"; a non-empty header whose token fails verification is answered
403 "Invalid token"; and the route handler is what answers, with the decoded claims, when
and only when verification succeeds. -/
theorem authenticate_guard (jwt : Jwt) (env : Env) (db : Db) (r : ProtectedRoute)
    (auth : Option String) (body : Body) :
    ((auth = none ∨ auth = some "") →
      handle jwt env db ⟨.prot r, auth, body⟩ = (db, ⟨401, .message "Missing token"⟩)) ∧
    (∀ h, auth = some h → h ≠ "" → jwt.verify (tokenOf h) SECRET_KEY env.now = none →
      handle jwt env db ⟨.prot r, auth, body⟩ = (db, ⟨403, .message "Invalid token"⟩)) ∧
    (∀ h decoded, auth = some h → h ≠ "" →
      jwt.verify (tokenOf h) SECRET_KEY env.now = some decoded →
      handle jwt env db ⟨.prot r, auth, body⟩ = protectedHandler env db body r decoded) ∧
    (handle jwt env db ⟨.prot r, auth, body⟩ = (db, ⟨401, .message "Missing token"⟩) ∨
      handle jwt env db ⟨.prot r, auth, body⟩ = (db, ⟨403, .message "Invalid token"⟩) ∨
      ∃ h decoded, auth = some h ∧ jwt.verify (tokenOf h) SECRET_KEY env.now = some decoded ∧
        handle jwt env db ⟨.prot r, auth, body⟩ = protectedHandler env db body r decoded) := by
  refine ⟨?_, ?_, ?_, ?_⟩
  · intro h
    have ht : truthy auth = none := (truthy_eq_none_iff auth).2 h
    simp only [handle, authenticate, ht]
  · intro h hauth hne hv
    subst hauth
    simp only [handle, authenticate, truthy_some_of_ne hne, hv]
  · intro h decoded hauth hne hv
    subst hauth
    simp only [handle, authenticate, truthy_some_of_ne hne, hv]
  · cases ht : truthy auth with
    | none => left; simp only [handle, authenticate, ht]
    | some h =>
      have hauth := ((truthy_eq_some_iff auth h).1 ht).1
      cases hv : jwt.verify (tokenOf h) SECRET_KEY env.now with
      | none => right; left; simp only [handle, authenticate, ht, hv]
      | some decoded =>
        right; right
        exact ⟨h, decoded, hauth, hv, by simp only [handle, authenticate, ht, hv]⟩

/-- Instance of C1: a request to `GET /api/admin/users` with the header `Bearer x`, whose
token the sample library rejects, is answered 403 "Invalid token". -/
theorem authenticate_guard_witness :
    handle sampleJwt (calmEnv 0 0) ⟨[], [], []⟩ ⟨.prot .listUsers, some "Bearer x", jsonBody [] none⟩
      = (⟨[], [], []⟩, ⟨403, .message "Invalid token"⟩) :=
  (authenticate_guard sampleJwt (calmEnv 0 0) ⟨[], [], []⟩ .listUsers (some "Bearer x")
    (jsonBody [] none)).2.1 "Bearer x" rfl (by decide) (by decide)

/-- C1 as stated fails: a header that is present but empty carries no verifiable token,
yet the answer is 401 "Missing token", not 403 "Invalid token". -/
theorem authenticate_empty_header_counterexample :
    ¬ (∀ (jwt : Jwt) (env : Env) (db : Db) (r : ProtectedRoute) (h : String) (body : Body),
        jwt.verify (tokenOf h) SECRET_KEY env.now = none →
        (handle jwt env db ⟨.prot r, some h, body⟩).2 = ⟨403, .message "Invalid token"⟩) := by
  intro H
  have h := H sampleJwt (calmEnv 0 0) ⟨[], [], []⟩ .listUsers "" (jsonBody [] none) (by decide)
  revert h
  decide

/-! ## The sample token library is lawful -/

theorem decodeNat_encodeNat (n : Nat) (rest : List Char) :
    decodeNat (encodeNat n ++ rest) = some (n, rest) := by
  induction n with
  | zero => simp [encodeNat, decodeNat]
  | succ k ih =>
    have hk : encodeNat (k + 1) ++ rest = '1' :: (encodeNat k ++ rest) := by
      simp [encodeNat, List.replicate_succ]
    rw [hk]
    simp only [decodeNat, ih]
    simp

theorem decodeStr_encodeStr (s : String) (rest : List Char) :
    decodeStr (encodeStr s ++ rest) = some (s, rest) := by
  have hs : encodeStr s ++ rest = encodeNat s.length ++ (s.data ++ rest) := by
    simp [encodeStr, List.append_assoc]
  have hlen : s.length = s.data.length := rfl
  rw [hs]
  simp only [decodeStr, decodeNat_encodeNat]
  rw [if_pos (by rw [hlen, List.length_append]; exact Nat.le_add_right _ _)]
  rw [hlen, List.take_left, List.drop_left]

theorem sampleJwt_lawful : sampleJwt.Lawful := by
  intro c secret expiresIn iat t _ hlt
  have hdata : (sampleSign c secret expiresIn iat).data
      = encodeNat (iat / 1000 + expiresIn) ++ (encodeStr secret ++ (encodeStr c.name ++
          (encodeStr c.email ++ (encodeStr c.role ++ [])))) := by
    simp [sampleSign, List.append_assoc]
  show sampleVerify (some (sampleSign c secret expiresIn iat)) secret t = some c
  simp only [sampleVerify, hdata, decodeNat_encodeNat, decodeStr_encodeStr]
  simp [hlt]

/-! ## C2: login -/

/-- C2 (amended): in an account store with unique emails, when the account lookup does not
fail, a login with the email and password of a stored account is answered 200 with a token
signed for that account's name, email and role (which a lawful library verifies back to
those claims until the token expires, one hour later); when the lookup does not fail and no
stored account has both the email and the password, the answer is 400 "Invalid email or
password", which carries no token; and when the lookup fails the answer is 500 "Error
logging in", which carries no token either. The store is left as it was in every case. -/
theorem login_spec (jwt : Jwt) (env : Env) (db : Db) (auth : Option String) (body : Body) :
    (∀ u ∈ db.users, (db.users.map User.email).Nodup → env.fails 0 = false →
        body.text "email" = some u.email → body.text "password" = some u.password →
        handle jwt env db ⟨.pub .login, auth, body⟩
          = (db, ⟨200, .loginOk "Login successful"
              (jwt.sign ⟨u.name, u.email, u.role⟩ SECRET_KEY 3600 env.now)
              ⟨u.name, u.email, u.role⟩⟩) ∧
        (jwt.Lawful → ∀ t, env.now / 1000 ≤ t / 1000 → t / 1000 < env.now / 1000 + 3600 →
          jwt.verify (some (jwt.sign ⟨u.name, u.email, u.role⟩ SECRET_KEY 3600 env.now))
            SECRET_KEY t = some ⟨u.name, u.email, u.role⟩)) ∧
    (env.fails 0 = false →
      (∀ u ∈ db.users, body.text "email" = some u.email →
        body.text "password" ≠ some u.password) →
      handle jwt env db ⟨.pub .login, auth, body⟩
        = (db, ⟨400, .message "Invalid email or password"⟩)) ∧
    (env.fails 0 = true →
      handle jwt env db ⟨.pub .login, auth, body⟩
        = (db, ⟨500, .message "Error logging in"⟩)) ∧
    (handle jwt env db ⟨.pub .login, auth, body⟩).1 = db := by
  refine ⟨?_, ?_, ?_, ?_⟩
  · intro u hu huniq hok he hp
    refine ⟨?_, fun hl t h1 h2 => hl _ _ _ _ _ h1 h2⟩
    simp only [handle, login, User.findOne, hok, he, find_email_of_mem db.users u huniq hu, hp]
    simp
  · intro hok hno
    cases he : body.text "email" with
    | none => simp [handle, login, User.findOne, hok, he]
    | some e =>
      cases hf : db.users.find? (fun v => v.email = e) with
      | none => simp [handle, login, User.findOne, hok, he, hf]
      | some u =>
        obtain ⟨hmem, hue⟩ := find_email_some hf
        have hp : body.text "password" ≠ some u.password := hno u hmem (by rw [he, hue])
        have hp' : some u.password ≠ body.text "password" := fun h => hp h.symm
        simp only [handle, login, User.findOne, hok, he, hf]
        simp [hp']
  · intro hfail
    simp [handle, login, User.findOne, hfail]
  · show (login jwt env db body).1 = db
    unfold login
    split
    · rfl
    · rfl
    · split <;> rfl

/-- Instance of C2: with the account of `A` stored, the login of `A` is answered 200 with a
token that the sample library verifies back to the claims of `A` at clock 5000; and when the
lookup throws, the same login is answered 500 "Error logging in". -/
theorem login_spec_witness :
    (handle sampleJwt (calmEnv 0 0) ⟨[⟨"A", "a@x.com", "p", "user"⟩], [], []⟩
        ⟨.pub .login, none, jsonBody [("email", "a@x.com"), ("password", "p")] none⟩
      = (⟨[⟨"A", "a@x.com", "p", "user"⟩], [], []⟩, ⟨200, .loginOk "Login successful"
          (sampleJwt.sign ⟨"A", "a@x.com", "user"⟩ SECRET_KEY 3600 0)
          ⟨"A", "a@x.com", "user"⟩⟩) ∧
    sampleJwt.verify (some (sampleJwt.sign ⟨"A", "a@x.com", "user"⟩ SECRET_KEY 3600 0))
      SECRET_KEY 5000 = some ⟨"A", "a@x.com", "user"⟩) ∧
    handle sampleJwt (stormEnv 0 0) ⟨[⟨"A", "a@x.com", "p", "user"⟩], [], []⟩
        ⟨.pub .login, none, jsonBody [("email", "a@x.com"), ("password", "p")] none⟩
      = (⟨[⟨"A", "a@x.com", "p", "user"⟩], [], []⟩, ⟨500, .message "Error logging in"⟩) :=
  have h := (login_spec sampleJwt (calmEnv 0 0) ⟨[⟨"A", "a@x.com", "p", "user"⟩], [], []⟩ none
    (jsonBody [("email", "a@x.com"), ("password", "p")] none)).1
    ⟨"A", "a@x.com", "p", "user"⟩ (by decide) (by decide) rfl (by decide) (by decide)
  ⟨⟨h.1, h.2 sampleJwt_lawful 5000 (by decide) (by decide)⟩,
    (login_spec sampleJwt (stormEnv 0 0) ⟨[⟨"A", "a@x.com", "p", "user"⟩], [], []⟩ none
      (jsonBody [("email", "a@x.com"), ("password", "p")] none)).2.2.1 rfl⟩

/-- C2 as stated fails: when the account lookup throws, a login with the right email and
password is answered 500, not 200. -/
theorem login_counterexample :
    ¬ (∀ (jwt : Jwt) (env : Env) (db : Db) (auth : Option String) (body : Body) (u : User),
        u ∈ db.users → body.text "email" = some u.email →
        body.text "password" = some u.password →
        (handle jwt env db ⟨.pub .login, auth, body⟩).2.status = 200) := by
  intro H
  have h := H sampleJwt (stormEnv 0 0) ⟨[⟨"A", "a@x.com", "p", "user"⟩], [], []⟩ none
    (jsonBody [("email", "a@x.com"), ("password", "p")] none) ⟨"A", "a@x.com", "p", "user"⟩
    (by decide) (by decide) (by decide)
  revert h
  decide

/-! ## C3 and C4: signup -/

/-- What `signup` does once name, email and password are all non-empty. -/
theorem signup_filled (env : Env) (db : Db) (body : Body) (name email password : String)
    (hn : body.text "name" = some name) (hn' : name ≠ "")
    (he : body.text "email" = some email) (he' : email ≠ "")
    (hp : body.text "password" = some password) (hp' : password ≠ "") :
    signup env db body =
      match User.findOne env 0 db (some email) with
      | none => (db, ⟨500, .message "Error registering user"⟩)
      | some (some _) => (db, ⟨400, .message "User already exists"⟩)
      | some none =>
        match User.save env 1 db
          ⟨name, email, password, (truthy (body.text "role")).getD "user"⟩ with
        | none => (db, ⟨500, .message "Error registering user"⟩)
        | some db' => (db', ⟨201, .message "User registered successfully"⟩) := by
  simp only [signup, hn, he, hp, truthy_some_of_ne hn', truthy_some_of_ne he',
    truthy_some_of_ne hp']

/-- When one of name, email and password is missing or empty, `signup` answers 400. -/
theorem signup_missing (env : Env) (db : Db) (body : Body)
    (h : truthy (body.text "name") = none ∨ truthy (body.text "email") = none ∨
      truthy (body.text "password") = none) :
    signup env db body = (db, ⟨400, .message "All fields are required"⟩) := by
  unfold signup
  split
  · rename_i h1 h2 h3
    rcases h with h | h | h
    · rw [h] at h1; cases h1
    · rw [h] at h2; cases h2
    · rw [h] at h3; cases h3
  · rfl

/-- A signup whose email is already stored never changes the database and is answered 400
or 500. -/
theorem signup_existing_unchanged (env : Env) (db : Db) (body : Body) (u : User)
    (hu : u ∈ db.users) (he : body.text "email" = some u.email) :
    (signup env db body).1 = db ∧
      ((signup env db body).2.status = 400 ∨ (signup env db body).2.status = 500) := by
  unfold signup
  split
  · rename_i name email password h1 h2 h3
    have hem : email = u.email := by
      have := ((truthy_eq_some_iff _ _).1 h2).1
      rw [he] at this
      exact (Option.some.inj this).symm
    subst hem
    by_cases hf : env.fails 0 = true
    · simp [User.findOne, hf]
    · have hf' : env.fails 0 = false := by simpa using hf
      cases hfind : db.users.find? (fun v => v.email = u.email) with
      | none => exact absurd rfl ((find_email_none _ _).1 hfind u hu)
      | some v => simp [User.findOne, hf', hfind]
  · exact ⟨rfl, Or.inl rfl⟩

/-- C3 (amended): a signup whose email is that of a stored account inserts nothing (the
database is the same before and after) and is never answered 201; when moreover name,
email and password are all non-empty and the account lookup does not fail, the answer is
400 "User already exists". -/
theorem signup_existing_email (jwt : Jwt) (env : Env) (db : Db) (auth : Option String)
    (body : Body) (u : User) (hu : u ∈ db.users) (he : body.text "email" = some u.email) :
    (handle jwt env db ⟨.pub .signup, auth, body⟩).1 = db ∧
    (handle jwt env db ⟨.pub .signup, auth, body⟩).2.status ≠ 201 ∧
    (∀ name password, body.text "name" = some name → name ≠ "" → u.email ≠ "" →
      body.text "password" = some password → password ≠ "" → env.fails 0 = false →
      handle jwt env db ⟨.pub .signup, auth, body⟩
        = (db, ⟨400, .message "User already exists"⟩)) := by
  obtain ⟨h1, h2⟩ := signup_existing_unchanged env db body u hu he
  refine ⟨h1, ?_, ?_⟩
  · show (signup env db body).2.status ≠ 201
    rcases h2 with h2 | h2 <;> rw [h2] <;> decide
  · intro name password hn hn' he' hp hp' hok
    show signup env db body = _
    rw [signup_filled env db body name u.email password hn hn' he he' hp hp']
    cases hfind : db.users.find? (fun v => v.email = u.email) with
    | none => exact absurd rfl ((find_email_none _ _).1 hfind u hu)
    | some v => simp [User.findOne, hok, hfind]

/-- Instance of C3: signing up `a@x.com` a second time is answered 400 "User already
exists" and leaves the single account in place. -/
theorem signup_existing_email_witness :
    handle sampleJwt (calmEnv 0 0) ⟨[⟨"A", "a@x.com", "p", "user"⟩], [], []⟩
        ⟨.pub .signup, none,
          jsonBody [("name", "Z"), ("email", "a@x.com"), ("password", "q")] none⟩
      = (⟨[⟨"A", "a@x.com", "p", "user"⟩], [], []⟩, ⟨400, .message "User already exists"⟩) :=
  (signup_existing_email sampleJwt (calmEnv 0 0) ⟨[⟨"A", "a@x.com", "p", "user"⟩], [], []⟩ none
    (jsonBody [("name", "Z"), ("email", "a@x.com"), ("password", "q")] none)
    ⟨"A", "a@x.com", "p", "user"⟩ (by decide) (by decide)).2.2 "Z" "q" (by decide) (by decide)
    (by decide) (by decide) (by decide) rfl

/-- C3 as stated fails: a signup with a stored email but no name is answered 400 with the
message "All fields are required", not "User already exists". -/
theorem signup_existing_email_counterexample :
    ¬ (∀ (jwt : Jwt) (env : Env) (db : Db) (auth : Option String) (body : Body) (u : User),
        u ∈ db.users → body.text "email" = some u.email →
        (handle jwt env db ⟨.pub .signup, auth, body⟩).2
          = ⟨400, .message "User already exists"⟩) := by
  intro H
  have h := H sampleJwt (calmEnv 0 0) ⟨[⟨"A", "a@x.com", "p", "user"⟩], [], []⟩ none
    (jsonBody [("email", "a@x.com"), ("password", "p")] none) ⟨"A", "a@x.com", "p", "user"⟩
    (by decide) (by decide)
  revert h
  decide

/-- C4 (amended): a signup whose name, email and password are all present and non-empty,
whose email is not yet stored, and whose two store calls do not fail, is answered 201 with
a message only, and the account store becomes the previous one followed by the single
account with that name, email and password, whose role is the request's role when a
non-empty one was supplied and "user" otherwise; a signup in which one of name, email and
password is missing or empty is answered 400 "All fields are required" and stores
nothing. -/
theorem signup_new_account (jwt : Jwt) (env : Env) (db : Db) (auth : Option String)
    (body : Body) :
    (∀ name email password, body.text "name" = some name → name ≠ "" →
      body.text "email" = some email → email ≠ "" →
      body.text "password" = some password → password ≠ "" →
      (∀ u ∈ db.users, u.email ≠ email) → env.fails 0 = false → env.fails 1 = false →
      ∃ role,
        handle jwt env db ⟨.pub .signup, auth, body⟩
          = (⟨db.users ++ [⟨name, email, password, role⟩], db.bookings, db.blogs⟩,
              ⟨201, .message "User registered successfully"⟩) ∧
        (∀ r, body.text "role" = some r → r ≠ "" → role = r) ∧
        ((body.text "role" = none ∨ body.text "role" = some "") → role = "user")) ∧
    ((body.text "name" = none ∨ body.text "name" = some "" ∨
        body.text "email" = none ∨ body.text "email" = some "" ∨
        body.text "password" = none ∨ body.text "password" = some "") →
      handle jwt env db ⟨.pub .signup, auth, body⟩
        = (db, ⟨400, .message "All fields are required"⟩)) := by
  constructor
  · intro name email password hn hn' he he' hp hp' hfresh h0 h1
    refine ⟨(truthy (body.text "role")).getD "user", ?_, ?_, ?_⟩
    · show signup env db body = _
      rw [signup_filled env db body name email password hn hn' he he' hp hp']
      have hfind : db.users.find? (fun v => v.email = email) = none :=
        (find_email_none _ _).2 hfresh
      have hany : db.users.any (fun v => decide (v.email = email)) = false := by
        rw [List.any_eq_false]
        intro v hv
        simpa using hfresh v hv
      simp [User.findOne, User.save, h0, h1, hfind, hany]
    · intro r hr hr'
      rw [hr, truthy_some_of_ne hr']
      rfl
    · intro hr
      rw [(truthy_eq_none_iff _).2 hr]
      rfl
  · intro h
    show signup env db body = _
    apply signup_missing
    rcases h with h | h | h | h | h | h
    · exact Or.inl ((truthy_eq_none_iff _).2 (Or.inl h))
    · exact Or.inl ((truthy_eq_none_iff _).2 (Or.inr h))
    · exact Or.inr (Or.inl ((truthy_eq_none_iff _).2 (Or.inl h)))
    · exact Or.inr (Or.inl ((truthy_eq_none_iff _).2 (Or.inr h)))
    · exact Or.inr (Or.inr ((truthy_eq_none_iff _).2 (Or.inl h)))
    · exact Or.inr (Or.inr ((truthy_eq_none_iff _).2 (Or.inr h)))

/-- Instance of C4: the first signup of `a@x.com`, without a role, is answered 201 and
stores the account with role "user". -/
theorem signup_new_account_witness :
    ∃ role,
      handle sampleJwt (calmEnv 0 0) ⟨[], [], []⟩ ⟨.pub .signup, none,
          jsonBody [("name", "A"), ("email", "a@x.com"), ("password", "p")] none⟩
        = (⟨[] ++ [⟨"A", "a@x.com", "p", role⟩], [], []⟩,
            ⟨201, .message "User registered successfully"⟩) ∧ role = "user" :=
  have h := (signup_new_account sampleJwt (calmEnv 0 0) ⟨[], [], []⟩ none
    (jsonBody [("name", "A"), ("email", "a@x.com"), ("password", "p")] none)).1
    "A" "a@x.com" "p" (by decide) (by decide) (by decide) (by decide) (by decide) (by decide)
    (by decide) rfl rfl
  h.elim fun role hr => ⟨role, hr.1, hr.2.2 (Or.inl (by decide))⟩

/-- C4 as stated fails: with name, email and password all present but the name empty, the
signup of a new email is answered 400, not 201; and a role supplied as the empty string is
stored as "user". -/
theorem signup_new_account_counterexample :
    ¬ (∀ (jwt : Jwt) (env : Env) (db : Db) (auth : Option String) (body : Body)
        (name email password : String),
        body.text "name" = some name → body.text "email" = some email →
        body.text "password" = some password → (∀ u ∈ db.users, u.email ≠ email) →
        env.fails 0 = false → env.fails 1 = false →
        (handle jwt env db ⟨.pub .signup, auth, body⟩).2.status = 201) ∧
    (handle sampleJwt (calmEnv 0 0) ⟨[], [], []⟩ ⟨.pub .signup, none,
        jsonBody [("name", "A"), ("email", "a@x.com"), ("password", "p"), ("role", "")] none⟩).1
      = ⟨[⟨"A", "a@x.com", "p", "user"⟩], [], []⟩ := by
  constructor
  · intro H
    have h := H sampleJwt (calmEnv 0 0) ⟨[], [], []⟩ none
      (jsonBody [("name", ""), ("email", "a@x.com"), ("password", "p")] none) "" "a@x.com" "p"
      (by decide) (by decide) (by decide) (by decide) rfl rfl
    revert h
    decide
  · decide

/-! ## Requests that carry a valid token -/

/-- A non-empty header whose token verifies hands the request to the route handler. -/
theorem handle_prot_valid (jwt : Jwt) (env : Env) (db : Db) (r : ProtectedRoute) (h : String)
    (body : Body) (c : Claims) (hh : h ≠ "")
    (hv : jwt.verify (tokenOf h) SECRET_KEY env.now = some c) :
    handle jwt env db ⟨.prot r, some h, body⟩ = protectedHandler env db body r c := by
  simp only [handle, authenticate, truthy_some_of_ne hh, hv]

/-- With unique keys, the lookup by an element's key finds that element. -/
theorem find_key_of_mem {α : Type} (key : α → Nat) :
    ∀ (l : List α) (a : α), (l.map key).Nodup → a ∈ l →
      l.find? (fun v => key v = key a) = some a
  | [], _, _, h => by cases h
  | v :: l, a, hnd, h => by
    rw [List.map_cons, List.nodup_cons] at hnd
    by_cases hv : key v = key a
    · have hav : a = v := by
        rcases List.mem_cons.1 h with h | h
        · exact h
        · exact absurd (hv ▸ List.mem_map_of_mem key h) hnd.1
      subst hav
      simp
    · have hmem : a ∈ l := by
        rcases List.mem_cons.1 h with h | h
        · exact absurd (h ▸ rfl) hv
        · exact h
      rw [List.find?_cons_of_neg _ (by simpa using hv)]
      exact find_key_of_mem key l a hnd.2 hmem

/-- With unique keys, erasing an element keeps exactly the elements with another key. -/
theorem erase_eq_filter_key {α : Type} [DecidableEq α] (key : α → Nat) (l : List α) (a : α)
    (hnd : (l.map key).Nodup) (ha : a ∈ l) :
    l.erase a = l.filter (fun q => key q ≠ key a) := by
  rw [List.Nodup.erase_eq_filter (List.Nodup.of_map key hnd) a]
  apply List.filter_congr
  intro q hq
  have hinj := List.inj_on_of_nodup_map hnd
  by_cases hqa : q = a
  · subst hqa; simp
  · have hk : key q ≠ key a := fun hk => hqa (hinj hq ha hk)
    simp [hqa, hk]

/-! ## C5: the admin-only booking routes -/

/-- C5 (amended): for a request carrying a valid token, `GET /api/admin/bookings` and
`DELETE /api/admin/bookings/:id` answer 403 "Access denied" when the token's role is not
"admin"; when it is "admin" and the store call does not fail, the list is answered 200 with
every booking, and the deletion is answered 200 when a booking with that identifier is
stored and 404 "Booking not found", leaving the database as it was, when none is. -/
theorem admin_bookings_spec (jwt : Jwt) (env : Env) (db : Db) (h : String) (c : Claims)
    (body : Body) (hh : h ≠ "") (hv : jwt.verify (tokenOf h) SECRET_KEY env.now = some c) :
    (c.role ≠ "admin" →
      handle jwt env db ⟨.prot .listBookingsAdmin, some h, body⟩
        = (db, ⟨403, .message "Access denied"⟩) ∧
      ∀ id, handle jwt env db ⟨.prot (.deleteBooking id), some h, body⟩
        = (db, ⟨403, .message "Access denied"⟩)) ∧
    (c.role = "admin" → env.fails 0 = false →
      handle jwt env db ⟨.prot .listBookingsAdmin, some h, body⟩
        = (db, ⟨200, .bookings db.bookings⟩) ∧
      ∀ id,
        ((∃ b ∈ db.bookings, b.id = id) →
          (handle jwt env db ⟨.prot (.deleteBooking id), some h, body⟩).2
            = ⟨200, .message "Booking cancelled successfully"⟩) ∧
        ((∀ b ∈ db.bookings, b.id ≠ id) →
          handle jwt env db ⟨.prot (.deleteBooking id), some h, body⟩
            = (db, ⟨404, .message "Booking not found"⟩))) := by
  constructor
  · intro hr
    constructor
    · rw [handle_prot_valid jwt env db _ h body c hh hv]
      simp [protectedHandler, listBookingsAdmin, hr]
    · intro id
      rw [handle_prot_valid jwt env db _ h body c hh hv]
      simp [protectedHandler, deleteBooking, hr]
  · intro hr hok
    constructor
    · rw [handle_prot_valid jwt env db _ h body c hh hv]
      simp [protectedHandler, listBookingsAdmin, hr, Booking.find, hok]
    · intro id
      constructor
      · rintro ⟨b, hb, hid⟩
        rw [handle_prot_valid jwt env db _ h body c hh hv]
        cases hf : db.bookings.find? (fun v => v.id = id) with
        | none =>
          have := List.find?_eq_none.1 hf b hb
          simp [hid] at this
        | some v => simp [protectedHandler, deleteBooking, hr, Booking.findByIdAndDelete, hok, hf]
      · intro hno
        rw [handle_prot_valid jwt env db _ h body c hh hv]
        have hf : db.bookings.find? (fun v => v.id = id) = none := by
          rw [List.find?_eq_none]
          intro v hv'
          simpa using hno v hv'
        simp [protectedHandler, deleteBooking, hr, Booking.findByIdAndDelete, hok, hf]

/-- Instance of C5: with the token of the ordinary user `B`, listing the bookings through
the admin route is answered 403 "Access denied". -/
theorem admin_bookings_spec_witness :
    handle sampleJwt (calmEnv 0 0) ⟨[], [], []⟩
        ⟨.prot .listBookingsAdmin, some userHeader, jsonBody [] none⟩
      = (⟨[], [], []⟩, ⟨403, .message "Access denied"⟩) :=
  ((admin_bookings_spec sampleJwt (calmEnv 0 0) ⟨[], [], []⟩ userHeader
    ⟨"B", "b@x.com", "user"⟩ (jsonBody [] none) (by decide) (by decide)).1 (by decide)).1

/-- C5 as stated fails: with the token of an administrator, deleting a booking that is not
stored is answered 404, not 200. -/
theorem admin_bookings_counterexample :
    ¬ (∀ (jwt : Jwt) (env : Env) (db : Db) (h : String) (c : Claims) (body : Body) (id : Nat),
        jwt.verify (tokenOf h) SECRET_KEY env.now = some c → c.role = "admin" →
        (handle jwt env db ⟨.prot (.deleteBooking id), some h, body⟩).2.status = 200) := by
  intro H
  have h := H sampleJwt (calmEnv 0 0) ⟨[], [], []⟩ adminHeader ⟨"A", "a@x.com", "admin"⟩
    (jsonBody [] none) 7 (by decide) (by decide)
  revert h
  decide

/-! ## C6: deleting a blog post -/

/-- C6 (amended): for a request carrying a valid token, when the blog identifiers are
unique and the store calls do not fail: if a post with the given identifier is stored and
either its author email is the token's email or the token's role is "admin", the deletion
is answered 200 "Blog deleted" and the blog store keeps exactly the posts with another
identifier; if a post is stored and neither holds, the answer is 403 and the database is
unchanged; if no post has the identifier, the answer is 404 "Blog not found" and the
database is unchanged. -/
theorem deleteBlog_spec (jwt : Jwt) (env : Env) (db : Db) (h : String) (c : Claims)
    (body : Body) (id : Nat) (hh : h ≠ "")
    (hv : jwt.verify (tokenOf h) SECRET_KEY env.now = some c)
    (huniq : (db.blogs.map Blog.id).Nodup) (h0 : env.fails 0 = false) :
    (∀ p ∈ db.blogs, p.id = id → (p.email = c.email ∨ c.role = "admin") →
      env.fails 1 = false →
      handle jwt env db ⟨.prot (.deleteBlog id), some h, body⟩
        = (⟨db.users, db.bookings, db.blogs.filter (fun q => q.id ≠ id)⟩,
            ⟨200, .message "Blog deleted"⟩)) ∧
    (∀ p ∈ db.blogs, p.id = id → ¬ (p.email = c.email ∨ c.role = "admin") →
      handle jwt env db ⟨.prot (.deleteBlog id), some h, body⟩
        = (db, ⟨403, .message "Not authorized to delete this blog"⟩)) ∧
    ((∀ p ∈ db.blogs, p.id ≠ id) →
      handle jwt env db ⟨.prot (.deleteBlog id), some h, body⟩
        = (db, ⟨404, .message "Blog not found"⟩)) := by
  refine ⟨?_, ?_, ?_⟩
  · intro p hp hid hauth h1
    subst hid
    rw [handle_prot_valid jwt env db _ h body c hh hv]
    have hf := find_key_of_mem Blog.id db.blogs p huniq hp
    have hcond : ¬ (p.email ≠ c.email ∧ c.role ≠ "admin") := by
      rintro ⟨ha, hb⟩
      rcases hauth with hx | hx
      · exact ha hx
      · exact hb hx
    simp only [protectedHandler, deleteBlog, Blog.findById, Blog.findByIdAndDelete, h0, h1, hf,
      Bool.false_eq_true, if_false, if_neg hcond, erase_eq_filter_key Blog.id db.blogs p huniq hp]
  · intro p hp hid hauth
    subst hid
    rw [handle_prot_valid jwt env db _ h body c hh hv]
    have hf := find_key_of_mem Blog.id db.blogs p huniq hp
    have hcond : p.email ≠ c.email ∧ c.role ≠ "admin" :=
      ⟨fun hx => hauth (Or.inl hx), fun hx => hauth (Or.inr hx)⟩
    simp only [protectedHandler, deleteBlog, Blog.findById, h0, hf, Bool.false_eq_true,
      if_false, if_pos hcond]
  · intro hno
    rw [handle_prot_valid jwt env db _ h body c hh hv]
    have hf : db.blogs.find? (fun v => v.id = id) = none := by
      rw [List.find?_eq_none]
      intro v hv'
      simpa using hno v hv'
    simp [protectedHandler, deleteBlog, Blog.findById, h0, hf]

/-- Instance of C6: the user `B` deletes the post 1, which `B` wrote; the post 2, written
by someone else, is kept. -/
theorem deleteBlog_spec_witness :
    handle sampleJwt (calmEnv 0 0)
        ⟨[], [], [⟨1, "t", "c", "B", "b@x.com", 5⟩, ⟨2, "u", "d", "Z", "z@x.com", 6⟩]⟩
        ⟨.prot (.deleteBlog 1), some userHeader, jsonBody [] none⟩
      = (⟨[], [], [⟨1, "t", "c", "B", "b@x.com", 5⟩, ⟨2, "u", "d", "Z", "z@x.com", 6⟩].filter
            (fun q => q.id ≠ 1)⟩, ⟨200, .message "Blog deleted"⟩) :=
  (deleteBlog_spec sampleJwt (calmEnv 0 0)
    ⟨[], [], [⟨1, "t", "c", "B", "b@x.com", 5⟩, ⟨2, "u", "d", "Z", "z@x.com", 6⟩]⟩
    userHeader ⟨"B", "b@x.com", "user"⟩ (jsonBody [] none) 1 (by decide) (by decide)
    (by decide) rfl).1 ⟨1, "t", "c", "B", "b@x.com", 5⟩ (by decide) rfl (Or.inl rfl) rfl

/-- C6 as stated fails: with the token of an administrator, deleting a post whose
identifier is not stored is answered 404, not 200 "Blog deleted". -/
theorem deleteBlog_counterexample :
    ¬ (∀ (jwt : Jwt) (env : Env) (db : Db) (h : String) (c : Claims) (body : Body) (id : Nat),
        jwt.verify (tokenOf h) SECRET_KEY env.now = some c → c.role = "admin" →
        (handle jwt env db ⟨.prot (.deleteBlog id), some h, body⟩).2
          = ⟨200, .message "Blog deleted"⟩) := by
  intro H
  have h := H sampleJwt (calmEnv 0 0) ⟨[], [], []⟩ adminHeader ⟨"A", "a@x.com", "admin"⟩
    (jsonBody [] none) 7 (by decide) (by decide)
  revert h
  decide

/-! ## C7: listing the blog posts -/

/-- C7 (amended): when the store query does not fail, `GET /api/blogs` is answered 200
with a list that is a permutation of the stored posts, whatever their order in the store,
and in which every post is at least as recent as every post after it, in particular the
next one; when the query fails the answer is 500 "Failed to fetch blogs". The database is
left as it was in both cases. -/
theorem listBlogs_sorted (jwt : Jwt) (env : Env) (db : Db) (auth : Option String)
    (body : Body) :
    (env.fails 0 = false →
      ∃ l, handle jwt env db ⟨.pub .listBlogs, auth, body⟩ = (db, ⟨200, .blogs l⟩) ∧
        l.Perm db.blogs ∧
        l.Pairwise (fun a b => b.date ≤ a.date) ∧
        l.Chain' (fun a b => b.date ≤ a.date)) ∧
    (env.fails 0 = true →
      handle jwt env db ⟨.pub .listBlogs, auth, body⟩
        = (db, ⟨500, .message "Failed to fetch blogs"⟩)) := by
  constructor
  · intro h0
    refine ⟨db.blogs.insertionSort Blog.newerEq, ?_, ?_, ?_, ?_⟩
    · simp [handle, listBlogs, Blog.findSorted, h0]
    · exact List.perm_insertionSort _ _
    · exact List.sorted_insertionSort Blog.newerEq db.blogs
    · exact List.Pairwise.chain' (List.sorted_insertionSort Blog.newerEq db.blogs)
  · intro hfail
    simp [handle, listBlogs, Blog.findSorted, hfail]

/-- Instance of C7: three posts stored oldest first are listed most recent first; and when
the query throws, the answer is 500 "Failed to fetch blogs". -/
theorem listBlogs_sorted_witness :
    (∃ l, handle sampleJwt (calmEnv 0 0)
          ⟨[], [], [⟨1, "t", "c", "B", "b@x.com", 5⟩, ⟨2, "u", "d", "Z", "z@x.com", 6⟩,
            ⟨3, "v", "e", "B", "b@x.com", 9⟩]⟩
          ⟨.pub .listBlogs, none, jsonBody [] none⟩
        = (⟨[], [], [⟨1, "t", "c", "B", "b@x.com", 5⟩, ⟨2, "u", "d", "Z", "z@x.com", 6⟩,
            ⟨3, "v", "e", "B", "b@x.com", 9⟩]⟩, ⟨200, .blogs l⟩) ∧
      l.map Blog.id = [3, 2, 1]) ∧
    handle sampleJwt (stormEnv 0 0) ⟨[], [], [⟨1, "t", "c", "B", "b@x.com", 5⟩]⟩
        ⟨.pub .listBlogs, none, jsonBody [] none⟩
      = (⟨[], [], [⟨1, "t", "c", "B", "b@x.com", 5⟩]⟩,
          ⟨500, .message "Failed to fetch blogs"⟩) :=
  ⟨((listBlogs_sorted sampleJwt (calmEnv 0 0)
    ⟨[], [], [⟨1, "t", "c", "B", "b@x.com", 5⟩, ⟨2, "u", "d", "Z", "z@x.com", 6⟩,
      ⟨3, "v", "e", "B", "b@x.com", 9⟩]⟩ none (jsonBody [] none)).1 rfl).elim
    fun l hl => ⟨l, hl.1, by
      have h := hl.1
      have h2 : l = [⟨3, "v", "e", "B", "b@x.com", 9⟩, ⟨2, "u", "d", "Z", "z@x.com", 6⟩,
          ⟨1, "t", "c", "B", "b@x.com", 5⟩] := by
        have h3 : (⟨200, .blogs l⟩ : Response) = ⟨200, .blogs [⟨3, "v", "e", "B", "b@x.com", 9⟩,
            ⟨2, "u", "d", "Z", "z@x.com", 6⟩, ⟨1, "t", "c", "B", "b@x.com", 5⟩]⟩ := by
          rw [← (Prod.mk.inj h).2]
          decide
        injection h3 with _ h4
        injection h4
      rw [h2]
      rfl⟩,
    (listBlogs_sorted sampleJwt (stormEnv 0 0) ⟨[], [], [⟨1, "t", "c", "B", "b@x.com", 5⟩]⟩
      none (jsonBody [] none)).2 rfl⟩

/-- C7 as stated fails: when the store call throws, `GET /api/blogs` is answered 500, not
200 with a list. -/
theorem listBlogs_counterexample :
    ¬ (∀ (jwt : Jwt) (env : Env) (db : Db) (auth : Option String) (body : Body),
        (handle jwt env db ⟨.pub .listBlogs, auth, body⟩).2.status = 200) := by
  intro H
  have h := H sampleJwt (stormEnv 0 0) ⟨[], [], []⟩ none (jsonBody [] none)
  revert h
  decide

/-! ## C8: authorship of a created post -/

/-- C8: for a request carrying a valid token with claims `c`, a post created by
`POST /api/blogs` has author `c.name`, email `c.email` and the title and content of the
body; two bodies that agree on title and content get the same answer and leave the same
database, whatever their other properties; and a body with non-empty title and content
does create the post (status 201) when the store call does not fail and the generated
identifier is new. -/
theorem createBlog_authorship (jwt : Jwt) (env : Env) (db : Db) (h : String) (c : Claims)
    (hh : h ≠ "") (hv : jwt.verify (tokenOf h) SECRET_KEY env.now = some c) :
    (∀ body m p, (handle jwt env db ⟨.prot .createBlog, some h, body⟩).2.body = .blogSaved m p →
      p.author = c.name ∧ p.email = c.email ∧
      body.text "title" = some p.title ∧ body.text "content" = some p.content ∧
      p ∈ (handle jwt env db ⟨.prot .createBlog, some h, body⟩).1.blogs) ∧
    (∀ b1 b2 : Body, b1.text "title" = b2.text "title" →
      b1.text "content" = b2.text "content" →
      handle jwt env db ⟨.prot .createBlog, some h, b1⟩
        = handle jwt env db ⟨.prot .createBlog, some h, b2⟩) ∧
    (∀ body title content, body.text "title" = some title → title ≠ "" →
      body.text "content" = some content → content ≠ "" → env.fails 0 = false →
      (∀ q ∈ db.blogs, q.id ≠ env.objectId) →
      handle jwt env db ⟨.prot .createBlog, some h, body⟩
        = (⟨db.users, db.bookings,
              db.blogs ++ [⟨env.objectId, title, content, c.name, c.email, env.now⟩]⟩,
            ⟨201, .blogSaved "Blog created"
              ⟨env.objectId, title, content, c.name, c.email, env.now⟩⟩)) := by
  refine ⟨?_, ?_, ?_⟩
  · intro body m p
    rw [handle_prot_valid jwt env db _ h body c hh hv]
    simp only [protectedHandler, createBlog]
    split
    · rename_i title content ht hc
      have ht' := ((truthy_eq_some_iff _ _).1 ht).1
      have hc' := ((truthy_eq_some_iff _ _).1 hc).1
      cases hs : Blog.save env 0 db ⟨env.objectId, title, content, c.name, c.email, env.now⟩ with
      | none => intro hb; simp at hb
      | some db' =>
        intro hb
        simp only [Payload.blogSaved.injEq] at hb
        obtain ⟨_, hp⟩ := hb
        subst hp
        refine ⟨rfl, rfl, ht', hc', ?_⟩
        simp only [Blog.save] at hs
        split at hs
        · cases hs
        · split at hs
          · cases hs
          · cases hs
            simp
    · intro hb
      simp at hb
  · intro b1 b2 ht hc
    rw [handle_prot_valid jwt env db _ h b1 c hh hv, handle_prot_valid jwt env db _ h b2 c hh hv]
    simp only [protectedHandler, createBlog, ht, hc]
  · intro body title content ht ht' hc hc' h0 hfresh
    rw [handle_prot_valid jwt env db _ h body c hh hv]
    have hany : db.blogs.any (fun v => decide (v.id = env.objectId)) = false := by
      rw [List.any_eq_false]
      intro v hv'
      simpa using hfresh v hv'
    simp [protectedHandler, createBlog, ht, hc, truthy_some_of_ne ht', truthy_some_of_ne hc',
      Blog.save, h0, hany]

/-- Instance of C8: the user `B` posts with a body that also claims another author and
email; the answer is the same as without them, and the stored post is signed `B`. -/
theorem createBlog_authorship_witness :
    handle sampleJwt (calmEnv 7 1) ⟨[], [], []⟩ ⟨.prot .createBlog, some userHeader,
        jsonBody [("title", "t"), ("content", "c"), ("author", "Z"), ("email", "z@x.com")] none⟩
      = handle sampleJwt (calmEnv 7 1) ⟨[], [], []⟩ ⟨.prot .createBlog, some userHeader,
        jsonBody [("title", "t"), ("content", "c")] none⟩ ∧
    handle sampleJwt (calmEnv 7 1) ⟨[], [], []⟩ ⟨.prot .createBlog, some userHeader,
        jsonBody [("title", "t"), ("content", "c"), ("author", "Z"), ("email", "z@x.com")] none⟩
      = (⟨[], [], [] ++ [⟨1, "t", "c", "B", "b@x.com", 7⟩]⟩,
          ⟨201, .blogSaved "Blog created" ⟨1, "t", "c", "B", "b@x.com", 7⟩⟩) :=
  have h := createBlog_authorship sampleJwt (calmEnv 7 1) ⟨[], [], []⟩ userHeader
    ⟨"B", "b@x.com", "user"⟩ (by decide) (by decide)
  ⟨h.2.1 _ _ (by decide) (by decide),
    h.2.2 _ "t" "c" (by decide) (by decide) (by decide) (by decide) rfl (by decide)⟩

/-! ## How each handler changes the database -/

/-- A save throws or appends the account. -/
theorem userSave_cases (env : Env) (call : Nat) (db : Db) (u : User) :
    User.save env call db u = none ∨
      User.save env call db u = some ⟨db.users ++ [u], db.bookings, db.blogs⟩ := by
  unfold User.save
  split
  · exact Or.inl rfl
  · split
    · exact Or.inl rfl
    · exact Or.inr rfl

/-- A save throws or appends the booking. -/
theorem bookingSave_cases (env : Env) (call : Nat) (db : Db) (b : Booking) :
    Booking.save env call db b = none ∨
      Booking.save env call db b = some ⟨db.users, db.bookings ++ [b], db.blogs⟩ := by
  unfold Booking.save
  split
  · exact Or.inl rfl
  · split
    · exact Or.inl rfl
    · exact Or.inr rfl

/-- A save throws or appends the post. -/
theorem blogSave_cases (env : Env) (call : Nat) (db : Db) (b : Blog) :
    Blog.save env call db b = none ∨
      Blog.save env call db b = some ⟨db.users, db.bookings, db.blogs ++ [b]⟩ := by
  unfold Blog.save
  split
  · exact Or.inl rfl
  · split
    · exact Or.inl rfl
    · exact Or.inr rfl

/-- A deletion throws, finds nothing and changes nothing, or removes one booking. -/
theorem bookingDelete_cases (env : Env) (call : Nat) (db : Db) (id : Nat) :
    Booking.findByIdAndDelete env call db id = none ∨
    Booking.findByIdAndDelete env call db id = some (none, db) ∨
    ∃ b, Booking.findByIdAndDelete env call db id
      = some (some b, ⟨db.users, db.bookings.erase b, db.blogs⟩) := by
  unfold Booking.findByIdAndDelete
  split
  · exact Or.inl rfl
  · split
    · exact Or.inr (Or.inl rfl)
    · rename_i b _
      exact Or.inr (Or.inr ⟨b, rfl⟩)

/-- A deletion throws, finds nothing and changes nothing, or removes one post. -/
theorem blogDelete_cases (env : Env) (call : Nat) (db : Db) (id : Nat) :
    Blog.findByIdAndDelete env call db id = none ∨
    Blog.findByIdAndDelete env call db id = some (none, db) ∨
    ∃ b, Blog.findByIdAndDelete env call db id
      = some (some b, ⟨db.users, db.bookings, db.blogs.erase b⟩) := by
  unfold Blog.findByIdAndDelete
  split
  · exact Or.inl rfl
  · split
    · exact Or.inr (Or.inl rfl)
    · rename_i b _
      exact Or.inr (Or.inr ⟨b, rfl⟩)

/-- A lookup by email throws, or resolves to an account with that email, or to nothing when
no account has it. -/
theorem userFindOne_cases (env : Env) (call : Nat) (db : Db) (email : String) :
    User.findOne env call db (some email) = none ∨
    (User.findOne env call db (some email) = some none ∧ ∀ u ∈ db.users, u.email ≠ email) ∨
    ∃ u, User.findOne env call db (some email) = some (some u) := by
  unfold User.findOne
  split
  · exact Or.inl rfl
  · cases hf : db.users.find? (fun u => u.email = email) with
    | none => exact Or.inr (Or.inl ⟨by simp only [hf], (find_email_none _ _).1 hf⟩)
    | some u => exact Or.inr (Or.inr ⟨u, by simp only [hf]⟩)

/-- `signup` either leaves the database as it was (and does not answer 201) or appends one
account whose email was not stored. -/
theorem signup_step (env : Env) (db : Db) (body : Body) :
    ((signup env db body).1 = db ∧ (signup env db body).2.status ≠ 201) ∨
    ∃ u, (∀ v ∈ db.users, v.email ≠ u.email) ∧
      (signup env db body).1 = ⟨db.users ++ [u], db.bookings, db.blogs⟩ ∧
      (signup env db body).2.status = 201 := by
  unfold signup
  split
  · rename_i name email password _ _ _
    rcases userFindOne_cases env 0 db email with hf | ⟨hf, hfresh⟩ | ⟨v, hf⟩
    · left; simp [hf]
    · rcases userSave_cases env 1 db
        ⟨name, email, password, (truthy (body.text "role")).getD "user"⟩ with hs | hs
      · left; simp [hf, hs]
      · right
        exact ⟨⟨name, email, password, (truthy (body.text "role")).getD "user"⟩, hfresh,
          by simp [hf, hs], by simp [hf, hs]⟩
    · left; simp [hf]
  · left; simp

/-- `login` never changes the database. -/
theorem login_db (jwt : Jwt) (env : Env) (db : Db) (body : Body) :
    (login jwt env db body).1 = db := by
  unfold login
  split
  · rfl
  · rfl
  · split <;> rfl

/-- `listBookings` never changes the database. -/
theorem listBookings_db (env : Env) (db : Db) : (listBookings env db).1 = db := by
  unfold listBookings
  split <;> rfl

/-- `listBlogs` never changes the database. -/
theorem listBlogs_db (env : Env) (db : Db) : (listBlogs env db).1 = db := by
  unfold listBlogs
  split <;> rfl

/-- `listBookingsAdmin` never changes the database. -/
theorem listBookingsAdmin_db (env : Env) (db : Db) (c : Claims) :
    (listBookingsAdmin env db c).1 = db := by
  unfold listBookingsAdmin
  split
  · rfl
  · split <;> rfl

/-- `listUsers` never changes the database. -/
theorem listUsers_db (env : Env) (db : Db) (c : Claims) : (listUsers env db c).1 = db := by
  unfold listUsers
  split
  · rfl
  · split <;> rfl

/-- `createBooking` leaves the accounts alone, and the whole database unless it answers
201. -/
theorem createBooking_step (env : Env) (db : Db) (c : Claims) (body : Body) :
    (createBooking env db c body).1.users = db.users ∧
    ((createBooking env db c body).1 = db ∨ (createBooking env db c body).2.status = 201) := by
  unfold createBooking
  split
  · rename_i name email people city price _ _ _ _ _
    rcases bookingSave_cases env 0 db
      ⟨env.objectId, name, email, people, city, price, env.now⟩ with hs | hs <;> simp [hs]
  · simp

/-- `createBlog` leaves the accounts alone, and the whole database unless it answers 201. -/
theorem createBlog_step (env : Env) (db : Db) (c : Claims) (body : Body) :
    (createBlog env db c body).1.users = db.users ∧
    ((createBlog env db c body).1 = db ∨ (createBlog env db c body).2.status = 201) := by
  unfold createBlog
  split
  · rename_i title content _ _
    rcases blogSave_cases env 0 db
      ⟨env.objectId, title, content, c.name, c.email, env.now⟩ with hs | hs <;> simp [hs]
  · simp

/-- `deleteBooking` leaves the accounts alone, and the whole database unless it answers
200. -/
theorem deleteBooking_step (env : Env) (db : Db) (c : Claims) (id : Nat) :
    (deleteBooking env db c id).1.users = db.users ∧
    ((deleteBooking env db c id).1 = db ∨ (deleteBooking env db c id).2.status = 200) := by
  unfold deleteBooking
  split
  · simp
  · rcases bookingDelete_cases env 0 db id with hs | hs | ⟨b, hs⟩ <;> simp [hs]

/-- `deleteBlog` leaves the accounts alone, and the whole database unless it answers 200;
it leaves the database alone when the caller is neither the author nor an administrator. -/
theorem deleteBlog_step (env : Env) (db : Db) (c : Claims) (id : Nat) :
    (deleteBlog env db c id).1.users = db.users ∧
    ((deleteBlog env db c id).1 = db ∨ (deleteBlog env db c id).2.status = 200) ∧
    ((∀ p ∈ db.blogs, p.id = id → p.email ≠ c.email ∧ c.role ≠ "admin") →
      (deleteBlog env db c id).1 = db) := by
  unfold deleteBlog
  split
  · simp
  · simp
  · rename_i blog hfind
    have hblog : blog ∈ db.blogs ∧ blog.id = id := by
      simp only [Blog.findById] at hfind
      split at hfind
      · cases hfind
      · have hf : db.blogs.find? (fun b => b.id = id) = some blog := by simpa using hfind
        exact ⟨List.mem_of_find?_eq_some hf, by simpa using List.find?_some hf⟩
    by_cases hcond : blog.email ≠ c.email ∧ c.role ≠ "admin"
    · rw [if_pos hcond]
      simp
    · rw [if_neg hcond]
      have hno : ¬ (∀ p ∈ db.blogs, p.id = id → p.email ≠ c.email ∧ c.role ≠ "admin") :=
        fun hall => hcond (hall blog hblog.1 hblog.2)
      rcases blogDelete_cases env 1 db id with hs | hs | ⟨b, hs⟩
      · rw [hs]; simp
      · rw [hs]; simp
      · rw [hs]
        exact ⟨rfl, Or.inr rfl, fun hall => absurd hall hno⟩

/-- A route handler behind `authenticate` leaves the accounts alone, and the whole database
unless it answers 200 or 201. -/
theorem protectedHandler_step (env : Env) (db : Db) (body : Body) (r : ProtectedRoute)
    (c : Claims) :
    (protectedHandler env db body r c).1.users = db.users ∧
    ((protectedHandler env db body r c).1 = db ∨
      (protectedHandler env db body r c).2.status = 200 ∨
      (protectedHandler env db body r c).2.status = 201) := by
  cases r with
  | createBooking =>
    obtain ⟨h1, h2⟩ := createBooking_step env db c body
    exact ⟨h1, h2.imp (fun x => x) Or.inr⟩
  | listBookingsAdmin =>
    have h := listBookingsAdmin_db env db c
    exact ⟨congrArg Db.users h, Or.inl h⟩
  | deleteBooking id =>
    obtain ⟨h1, h2⟩ := deleteBooking_step env db c id
    exact ⟨h1, h2.imp (fun x => x) Or.inl⟩
  | listUsers =>
    have h := listUsers_db env db c
    exact ⟨congrArg Db.users h, Or.inl h⟩
  | createBlog =>
    obtain ⟨h1, h2⟩ := createBlog_step env db c body
    exact ⟨h1, h2.imp (fun x => x) Or.inr⟩
  | deleteBlog id =>
    obtain ⟨h1, h2, _⟩ := deleteBlog_step env db c id
    exact ⟨h1, h2.imp (fun x => x) Or.inl⟩

/-- What `authenticate` answers: itself, leaving the database alone, or through `next`. -/
theorem authenticate_cases (jwt : Jwt) (env : Env) (auth : Option String) (db : Db)
    (next : Claims → Db × Response) :
    authenticate jwt env auth db next = (db, ⟨401, .message "Missing token"⟩) ∨
    authenticate jwt env auth db next = (db, ⟨403, .message "Invalid token"⟩) ∨
    ∃ h c, truthy auth = some h ∧ jwt.verify (tokenOf h) SECRET_KEY env.now = some c ∧
      authenticate jwt env auth db next = next c := by
  cases ht : truthy auth with
  | none => left; simp only [authenticate, ht]
  | some h =>
    cases hv : jwt.verify (tokenOf h) SECRET_KEY env.now with
    | none => right; left; simp only [authenticate, ht, hv]
    | some c => right; right; exact ⟨h, c, rfl, hv, by simp only [authenticate, ht, hv]⟩

/-- The router on a protected route is `authenticate` around the route handler. -/
theorem handle_prot (jwt : Jwt) (env : Env) (db : Db) (r : ProtectedRoute)
    (auth : Option String) (body : Body) :
    handle jwt env db ⟨.prot r, auth, body⟩
      = authenticate jwt env auth db (protectedHandler env db body r) := rfl

/-- One request either leaves the database as it was, or is answered 200 or 201. -/
theorem handle_changes (jwt : Jwt) (env : Env) (db : Db) (req : Request) :
    (handle jwt env db req).1 = db ∨ (handle jwt env db req).2.status = 200 ∨
      (handle jwt env db req).2.status = 201 := by
  obtain ⟨endpoint, auth, body⟩ := req
  cases endpoint with
  | pub r =>
    cases r with
    | signup =>
      rcases signup_step env db body with h | ⟨u, _, _, h⟩
      · exact Or.inl h.1
      · exact Or.inr (Or.inr h)
    | login => exact Or.inl (login_db jwt env db body)
    | listBookings => exact Or.inl (listBookings_db env db)
    | listBlogs => exact Or.inl (listBlogs_db env db)
  | prot r =>
    rw [handle_prot]
    rcases authenticate_cases jwt env auth db (protectedHandler env db body r) with
      h | h | ⟨_, c, _, _, h⟩
    · rw [h]; exact Or.inl rfl
    · rw [h]; exact Or.inl rfl
    · rw [h]; exact (protectedHandler_step env db body r c).2

/-- One request either leaves the accounts as they were, or it is a signup and appends one
account whose email was not stored. -/
theorem handle_users (jwt : Jwt) (env : Env) (db : Db) (req : Request) :
    (handle jwt env db req).1.users = db.users ∨
    (req.endpoint = .pub .signup ∧
      ∃ u, (∀ v ∈ db.users, v.email ≠ u.email) ∧
        (handle jwt env db req).1.users = db.users ++ [u]) := by
  obtain ⟨endpoint, auth, body⟩ := req
  cases endpoint with
  | pub r =>
    cases r with
    | signup =>
      rcases signup_step env db body with h | ⟨u, hu, h, _⟩
      · exact Or.inl (congrArg Db.users h.1)
      · exact Or.inr ⟨rfl, u, hu, congrArg Db.users h⟩
    | login => exact Or.inl (congrArg Db.users (login_db jwt env db body))
    | listBookings => exact Or.inl (congrArg Db.users (listBookings_db env db))
    | listBlogs => exact Or.inl (congrArg Db.users (listBlogs_db env db))
  | prot r =>
    left
    rw [handle_prot]
    rcases authenticate_cases jwt env auth db (protectedHandler env db body r) with
      h | h | ⟨_, c, _, _, h⟩
    · rw [h]
    · rw [h]
    · rw [h]; exact (protectedHandler_step env db body r c).1

/-! ## C9: the account store under sequences of requests -/

/-- Handling a sequence of requests in two parts. -/
theorem run_append (jwt : Jwt) :
    ∀ (t1 t2 : List (Env × Request)) (db : Db),
      run jwt db (t1 ++ t2) = run jwt (run jwt db t1) t2
  | [], _, _ => rfl
  | (env, req) :: t1, t2, db => by
    simp only [List.cons_append, run]
    exact run_append jwt t1 t2 _

/-- One request keeps the emails unique and keeps every stored account, in place. -/
theorem handle_users_invariant (jwt : Jwt) (env : Env) (db : Db) (req : Request)
    (hnd : (db.users.map User.email).Nodup) :
    ((handle jwt env db req).1.users.map User.email).Nodup ∧
      db.users <+: (handle jwt env db req).1.users := by
  rcases handle_users jwt env db req with h | ⟨_, u, hu, h⟩
  · rw [h]
    exact ⟨hnd, List.prefix_refl _⟩
  · rw [h]
    refine ⟨?_, List.prefix_append _ _⟩
    rw [List.map_append, List.nodup_append]
    refine ⟨hnd, by simp, ?_⟩
    intro e he hu'
    obtain ⟨v, hv, hve⟩ := List.mem_map.1 he
    have hue : e = u.email := by simpa using hu'
    exact hu v hv (hve.trans hue)

/-- A sequence of requests keeps the emails unique and keeps every stored account. -/
theorem run_users_invariant (jwt : Jwt) :
    ∀ (trace : List (Env × Request)) (db : Db), (db.users.map User.email).Nodup →
      ((run jwt db trace).users.map User.email).Nodup ∧ db.users <+: (run jwt db trace).users
  | [], _, hnd => ⟨hnd, List.prefix_refl _⟩
  | (env, req) :: rest, db, hnd => by
    obtain ⟨h1, h2⟩ := handle_users_invariant jwt env db req hnd
    obtain ⟨h3, h4⟩ := run_users_invariant jwt rest (handle jwt env db req).1 h1
    exact ⟨h3, h2.trans h4⟩

/-- C9: starting from an empty account store (and any bookings and posts), after any
sequence of requests to the ten endpoints handled one after the other, no two stored
accounts have the same email; the accounts stored after any initial part of the sequence
are still stored at the end, unchanged and in the same place; and a request to an endpoint
other than signup leaves the account store as it was. -/
theorem accounts_invariant (jwt : Jwt) (bookings : List Booking) (blogs : List Blog)
    (trace : List (Env × Request)) :
    ((run jwt ⟨[], bookings, blogs⟩ trace).users.map User.email).Nodup ∧
    (∀ k, (run jwt ⟨[], bookings, blogs⟩ (trace.take k)).users
        <+: (run jwt ⟨[], bookings, blogs⟩ trace).users) ∧
    (∀ k u, u ∈ (run jwt ⟨[], bookings, blogs⟩ (trace.take k)).users →
        u ∈ (run jwt ⟨[], bookings, blogs⟩ trace).users) ∧
    (∀ env db req, req.endpoint ≠ .pub .signup → (handle jwt env db req).1.users = db.users) := by
  have hinit : ((⟨[], bookings, blogs⟩ : Db).users.map User.email).Nodup := List.nodup_nil
  have hpre : ∀ k, (run jwt ⟨[], bookings, blogs⟩ (trace.take k)).users
      <+: (run jwt ⟨[], bookings, blogs⟩ trace).users := by
    intro k
    have hmid := (run_users_invariant jwt (trace.take k) ⟨[], bookings, blogs⟩ hinit).1
    have hsplit : run jwt ⟨[], bookings, blogs⟩ trace
        = run jwt (run jwt ⟨[], bookings, blogs⟩ (trace.take k)) (trace.drop k) := by
      rw [← run_append, List.take_append_drop]
    rw [hsplit]
    exact (run_users_invariant jwt (trace.drop k) _ hmid).2
  refine ⟨(run_users_invariant jwt trace _ hinit).1, hpre, ?_, ?_⟩
  · intro k u hu
    exact (hpre k).subset hu
  · intro env db req hne
    rcases handle_users jwt env db req with h | ⟨h, _⟩
    · exact h
    · exact absurd h hne

/-- Instance of C9: after `a@x.com` signs up twice, with different names, and logs in, the
emails of the store are distinct. -/
theorem accounts_invariant_witness :
    ((run sampleJwt ⟨[], [], []⟩
      [(calmEnv 0 0, ⟨.pub .signup, none,
          jsonBody [("name", "A"), ("email", "a@x.com"), ("password", "p")] none⟩),
        (calmEnv 1 1, ⟨.pub .signup, none,
          jsonBody [("name", "Z"), ("email", "a@x.com"), ("password", "q")] none⟩),
        (calmEnv 2 2, ⟨.pub .login, none,
          jsonBody [("email", "a@x.com"), ("password", "p")] none⟩)]).users.map
        User.email).Nodup :=
  (accounts_invariant sampleJwt [] [] _).1

/-! ## C10: a rejected request changes nothing -/

/-- C10: whatever the endpoint, the database and the request, when the answer has status
400, 401, 403 or 404 the three collections are the same after the request as before. In
particular the database is unchanged by a request to a protected route whose header is
missing or carries a token that fails verification, by a request to an admin route with a
valid token whose role is not "admin" (answered 403), and by a deletion of a post by a
caller who is neither its author nor an administrator. -/
theorem rejection_atomic (jwt : Jwt) (env : Env) (db : Db) (req : Request) :
    (((handle jwt env db req).2.status = 400 ∨ (handle jwt env db req).2.status = 401 ∨
        (handle jwt env db req).2.status = 403 ∨ (handle jwt env db req).2.status = 404) →
      (handle jwt env db req).1 = db) ∧
    (∀ r auth body,
      (auth = none ∨ ∃ h, auth = some h ∧ jwt.verify (tokenOf h) SECRET_KEY env.now = none) →
      (handle jwt env db ⟨.prot r, auth, body⟩).1 = db) ∧
    (∀ h c body r, h ≠ "" → jwt.verify (tokenOf h) SECRET_KEY env.now = some c →
      c.role ≠ "admin" →
      (r = .listBookingsAdmin ∨ r = .listUsers ∨ ∃ id, r = .deleteBooking id) →
      handle jwt env db ⟨.prot r, some h, body⟩ = (db, ⟨403, .message "Access denied"⟩)) ∧
    (∀ h c body id, h ≠ "" → jwt.verify (tokenOf h) SECRET_KEY env.now = some c →
      (∀ p ∈ db.blogs, p.id = id → p.email ≠ c.email ∧ c.role ≠ "admin") →
      (handle jwt env db ⟨.prot (.deleteBlog id), some h, body⟩).1 = db) := by
  refine ⟨?_, ?_, ?_, ?_⟩
  · intro hs
    rcases handle_changes jwt env db req with h | h | h
    · exact h
    · rw [h] at hs; exact absurd hs (by decide)
    · rw [h] at hs; exact absurd hs (by decide)
  · intro r auth body hbad
    rw [handle_prot]
    rcases authenticate_cases jwt env auth db (protectedHandler env db body r) with
      h | h | ⟨h', c, ht, hv, _⟩
    · rw [h]
    · rw [h]
    · have hauth := ((truthy_eq_some_iff auth h').1 ht).1
      rcases hbad with hnone | ⟨h2, hsome, hfail⟩
      · rw [hnone] at hauth; cases hauth
      · rw [hsome] at hauth
        cases hauth
        rw [hfail] at hv
        cases hv
  · intro h c body r hh hv hrole hr
    rw [handle_prot_valid jwt env db r h body c hh hv]
    rcases hr with hr | hr | ⟨id, hr⟩
    · subst hr; simp [protectedHandler, listBookingsAdmin, hrole]
    · subst hr; simp [protectedHandler, listUsers, hrole]
    · subst hr; simp [protectedHandler, deleteBooking, hrole]
  · intro h c body id hh hv hall
    rw [handle_prot_valid jwt env db _ h body c hh hv]
    exact (deleteBlog_step env db c id).2.2 hall

/-- Instance of C10: the user `B` tries to delete a post written by `Z`; the answer is 403
and the database is the same afterwards. -/
theorem rejection_atomic_witness :
    (handle sampleJwt (calmEnv 0 0) ⟨[], [], [⟨2, "u", "d", "Z", "z@x.com", 6⟩]⟩
        ⟨.prot (.deleteBlog 2), some userHeader, jsonBody [] none⟩).2.status = 403 ∧
    (handle sampleJwt (calmEnv 0 0) ⟨[], [], [⟨2, "u", "d", "Z", "z@x.com", 6⟩]⟩
        ⟨.prot (.deleteBlog 2), some userHeader, jsonBody [] none⟩).1
      = ⟨[], [], [⟨2, "u", "d", "Z", "z@x.com", 6⟩]⟩ :=
  ⟨by decide,
    (rejection_atomic sampleJwt (calmEnv 0 0) ⟨[], [], [⟨2, "u", "d", "Z", "z@x.com", 6⟩]⟩
      ⟨.prot (.deleteBlog 2), some userHeader, jsonBody [] none⟩).1
      (Or.inr (Or.inr (Or.inl (by decide))))⟩

end Flego
